import Mathlib

/-!
Shallow embedding of the exam-attempt engine of the college exam system
(src/exams/models.py and src/exams/views.py).  Scores are modelled as
rationals, timestamps as integers (seconds).  Database rows become list
entries; the joined question object of a StudentAnswer row is embedded in
the record, matching the select_related join used by the views.
-/

/-- Question.Type from src/exams/models.py. -/
inductive QuestionType
  | MCQ
  | MSQ
  | TRUE_FALSE
  | SHORT_ANSWER
  | LONG_ANSWER
  | CODE
  deriving DecidableEq

/-- The objectively gradable types, as listed in SubmitExamView.post. -/
def QuestionType.isObjective : QuestionType → Bool
  | .MCQ => true
  | .MSQ => true
  | .TRUE_FALSE => true
  | _ => false

/-- The subjective types summed by grade_attempt. -/
def QuestionType.isSubjective : QuestionType → Bool
  | .SHORT_ANSWER => true
  | .LONG_ANSWER => true
  | .CODE => true
  | _ => false

/-- QuestionOption row: id and correctness flag. -/
structure QuestionOption where
  id : Nat
  is_correct : Bool
  deriving DecidableEq

/-- Question row: id, type, base marks, options. -/
structure Question where
  id : Nat
  question_type : QuestionType
  marks : Nat
  options : List QuestionOption
  deriving DecidableEq

/-- question.options.filter(is_correct=True).values_list(id) in the scorer. -/
def Question.correctOptionIds (q : Question) : List Nat :=
  (q.options.filter (fun o => o.is_correct)).map (fun o => o.id)

/-- ExamQuestion through-table row: question, order, optional marks override. -/
structure ExamQuestion where
  question : Question
  order : Nat
  marks_override : Option Nat
  deriving DecidableEq

/-- Exam row: the fields the attempt engine reads. -/
structure Exam where
  duration_minutes : Nat
  start_datetime : Int
  end_datetime : Int
  shuffle_questions : Bool
  negative_marking : Rat
  examQuestions : List ExamQuestion
  deriving DecidableEq

/-- exam.questions.all, in through-table order. -/
def Exam.questionList (e : Exam) : List Question :=
  e.examQuestions.map (fun l => l.question)

/-- ExamStudent.Status from src/exams/models.py. -/
inductive AttemptStatus
  | NOT_STARTED
  | IN_PROGRESS
  | SUBMITTED
  | AUTO_SUBMITTED
  deriving DecidableEq

/-- The two terminal states checked at the top of SubmitExamView.post. -/
def AttemptStatus.isTerminal : AttemptStatus → Bool
  | .SUBMITTED => true
  | .AUTO_SUBMITTED => true
  | _ => false

/-- ExamStudent row (one attempt of one student at one exam). -/
structure ExamStudent where
  status : AttemptStatus
  score_objective : Rat
  score_subjective : Rat
  total_score : Rat
  started_at : Option Int
  submitted_at : Option Int
  question_order : List Nat
  deriving DecidableEq

/-- StudentAnswer row, with the joined question embedded. -/
structure StudentAnswer where
  question : Question
  selected_options : List Nat
  answer_text : String
  is_evaluated : Bool
  marks_awarded : Rat
  deriving DecidableEq

/-- One attempt together with its answer rows. -/
structure AttemptState where
  attempt : ExamStudent
  answers : List StudentAnswer
  deriving DecidableEq

/-- Python set equality set(a) == set(b) on lists of option ids. -/
def sameSet (a b : List Nat) : Bool :=
  a.all (fun x => b.contains x) && b.all (fun x => a.contains x)

/-- The per-answer body of the evaluation loop in SubmitExamView.post:
returns the updated answer row and the delta added to the running
objective total.  Non-objective answers are skipped unchanged. -/
def scoreAnswer (negative_marking : Rat) (ans : StudentAnswer) :
    StudentAnswer × Rat :=
  if ans.question.question_type.isObjective then
    if sameSet ans.question.correctOptionIds ans.selected_options then
      ({ ans with marks_awarded := (ans.question.marks : Rat), is_evaluated := true },
        (ans.question.marks : Rat))
    else
      ({ ans with marks_awarded := 0, is_evaluated := true },
        if 0 < negative_marking ∧ 0 < ans.selected_options.length
        then -negative_marking else 0)
  else
    (ans, 0)

/-- The whole evaluation loop: all answer rows after saving, and the
final running objective total (starts at 0.0). -/
def runScorer (negative_marking : Rat) (answers : List StudentAnswer) :
    List StudentAnswer × Rat :=
  answers.foldl
    (fun acc ans =>
      let r := scoreAnswer negative_marking ans
      (acc.1 ++ [r.1], acc.2 + r.2))
    ([], 0)

/-- The JSON body returned by SubmitExamView.post. -/
inductive SubmitExamResponse
  | already_submitted
  | submitted (score : Rat)
  deriving DecidableEq

/-- SubmitExamView.post: early return when already terminal, otherwise
mark SUBMITTED, stamp submitted_at, run the scorer and store the scores. -/
def SubmitExamView_post (now : Int) (exam : Exam) (st : AttemptState) :
    SubmitExamResponse × AttemptState :=
  if st.attempt.status.isTerminal then
    (.already_submitted, st)
  else
    let scored := runScorer exam.negative_marking st.answers
    let att := { st.attempt with
      status := .SUBMITTED
      submitted_at := some now
      score_objective := scored.2
      total_score := scored.2 + st.attempt.score_subjective }
    (.submitted att.total_score, { attempt := att, answers := scored.1 })

/-- Outcomes of SubmitAnswerView.post. -/
inductive SaveAnswerResponse
  | examNotInProgress
  | questionNotFound
  | saved
  deriving DecidableEq

/-- get_object_or_404(Question, id=question_id) over the global question table. -/
def findQuestion (db : List Question) (qid : Nat) : Option Question :=
  db.find? (fun q => q.id = qid)

/-- SubmitAnswerView.post: reject unless IN_PROGRESS, 404 when the question
id is unknown, then update_or_create keyed on (attempt, question) with
defaults selected_options and answer_text only. -/
def SubmitAnswerView_post (db : List Question) (question_id : Nat)
    (selected_options : List Nat) (answer_text : String)
    (st : AttemptState) : SaveAnswerResponse × AttemptState :=
  if st.attempt.status ≠ .IN_PROGRESS then
    (.examNotInProgress, st)
  else
    match findQuestion db question_id with
    | none => (.questionNotFound, st)
    | some q =>
      let answers :=
        if st.answers.any (fun a => a.question.id = question_id) then
          st.answers.map (fun a =>
            if a.question.id = question_id then
              { a with selected_options := selected_options,
                       answer_text := answer_text }
            else a)
        else
          st.answers ++ [{ question := q,
                           selected_options := selected_options,
                           answer_text := answer_text,
                           is_evaluated := false,
                           marks_awarded := 0 }]
      (.saved, { st with answers := answers })

/-- The subjective-score aggregate of grade_attempt: Sum of marks_awarded
over answers whose question type is SHORT, LONG or CODE. -/
def subjectiveSum (answers : List StudentAnswer) : Rat :=
  ((answers.filter (fun a => a.question.question_type.isSubjective)).map
      (fun a => a.marks_awarded)).sum

/-- StudentAnswer.objects.get_or_create followed by writing marks_awarded
and is_evaluated, as done in grade_attempt. -/
def upsertGrade (q : Question) (marks : Rat) (answers : List StudentAnswer) :
    List StudentAnswer :=
  if answers.any (fun a => a.question.id = q.id) then
    answers.map (fun a =>
      if a.question.id = q.id then
        { a with marks_awarded := marks, is_evaluated := true }
      else a)
  else
    answers ++ [{ question := q, selected_options := [], answer_text := "",
                  is_evaluated := true, marks_awarded := marks }]

/-- grade_attempt from src/exams/views.py: write the grade, recompute the
subjective sum and the total, return the new total. -/
def grade_attempt (q : Question) (marks : Rat) (st : AttemptState) :
    Rat × AttemptState :=
  let answers := upsertGrade q marks st.answers
  let subj := subjectiveSum answers
  let att := { st.attempt with
    score_subjective := subj
    total_score := st.attempt.score_objective + subj }
  (att.total_score, { attempt := att, answers := answers })

/-- The three outcomes of take_exam_view. -/
inductive TakeExamResult
  | notStartedError
  | endedError
  | page
  deriving DecidableEq

/-- take_exam_view: the template entry point with the window check. -/
def take_exam_view (now : Int) (exam : Exam) : TakeExamResult :=
  if now < exam.start_datetime then .notStartedError
  else if exam.end_datetime < now then .endedError
  else .page

/-- Result of StartExamView.post: the attempt row and the created flag of
get_or_create. -/
structure StartExamResult where
  attempt : ExamStudent
  created : Bool
  deriving DecidableEq

/-- StartExamView.post: get_or_create the attempt; on creation set
IN_PROGRESS, stamp started_at, store the (possibly shuffled) question
order.  The random shuffle is passed in as a function parameter. -/
def StartExamView_post (shuffle : List Question → List Question) (now : Int)
    (exam : Exam) (existing : Option ExamStudent) : StartExamResult :=
  match existing with
  | some att => { attempt := att, created := false }
  | none =>
    let base : ExamStudent :=
      { status := .NOT_STARTED, score_objective := 0, score_subjective := 0,
        total_score := 0, started_at := none, submitted_at := none,
        question_order := [] }
    let qs := exam.questionList
    let ordered := if exam.shuffle_questions then shuffle qs else qs
    { attempt := { base with
        status := .IN_PROGRESS
        started_at := some now
        question_order := ordered.map (fun q => q.id) },
      created := true }

/-!
Concrete fixtures used in witnesses and counterexamples.
-/

/-- A 1-mark MCQ whose correct option has id 2. -/
def q1 : Question :=
  { id := 1, question_type := .MCQ, marks := 1,
    options := [{ id := 1, is_correct := false }, { id := 2, is_correct := true }] }

/-- A 2-mark MCQ whose correct option has id 3. -/
def q2 : Question :=
  { id := 2, question_type := .MCQ, marks := 2,
    options := [{ id := 3, is_correct := true }, { id := 4, is_correct := false }] }

/-- A 5-mark short-answer question. -/
def qShort : Question :=
  { id := 9, question_type := .SHORT_ANSWER, marks := 5, options := [] }

/-- An in-progress attempt over question order [1]. -/
def attemptIP : ExamStudent :=
  { status := .IN_PROGRESS, score_objective := 0, score_subjective := 0,
    total_score := 0, started_at := some 0, submitted_at := none,
    question_order := [1] }

/-- Exam with negative marking 1/4 carrying only q2. -/
def examNeg : Exam :=
  { duration_minutes := 60, start_datetime := 0, end_datetime := 10000,
    shuffle_questions := false, negative_marking := 1/4,
    examQuestions := [{ question := q2, order := 1, marks_override := none }] }

/-- A wrong, non-empty answer to q2 (selected the incorrect option 4). -/
def ansWrong : StudentAnswer :=
  { question := q2, selected_options := [4], answer_text := "",
    is_evaluated := false, marks_awarded := 0 }

/-- In-progress attempt holding only the wrong answer to q2. -/
def stNeg : AttemptState :=
  { attempt := { attemptIP with question_order := [2] }, answers := [ansWrong] }

/-!
Claim C1.
-/

/-- Claim C1: after the scorer run of SubmitExamView.post (which only runs
when the attempt is not yet terminal) and after every grade_attempt call,
total_score equals score_objective plus score_subjective. -/
theorem total_score_invariant_after_scoring_and_grading
    (now : Int) (exam : Exam) (st₁ : AttemptState)
    (q : Question) (m : Rat) (st₂ : AttemptState)
    (h : st₁.attempt.status.isTerminal = false) :
    ((SubmitExamView_post now exam st₁).2.attempt.total_score
        = (SubmitExamView_post now exam st₁).2.attempt.score_objective
          + (SubmitExamView_post now exam st₁).2.attempt.score_subjective) ∧
    ((grade_attempt q m st₂).2.attempt.total_score
        = (grade_attempt q m st₂).2.attempt.score_objective
          + (grade_attempt q m st₂).2.attempt.score_subjective) := by
  constructor
  · simp [SubmitExamView_post, h]
  · simp [grade_attempt]

/-- Witness for C1 at a concrete attempt and grading call. -/
theorem total_score_invariant_witness :
    ((SubmitExamView_post 5 examNeg stNeg).2.attempt.total_score
        = (SubmitExamView_post 5 examNeg stNeg).2.attempt.score_objective
          + (SubmitExamView_post 5 examNeg stNeg).2.attempt.score_subjective) ∧
    ((grade_attempt qShort 3 stNeg).2.attempt.total_score
        = (grade_attempt qShort 3 stNeg).2.attempt.score_objective
          + (grade_attempt qShort 3 stNeg).2.attempt.score_subjective) :=
  total_score_invariant_after_scoring_and_grading 5 examNeg stNeg qShort 3 stNeg
    (by decide)

/-!
Claim C2.
-/

/-- Exam whose window ended at time 100. -/
def examLate : Exam :=
  { duration_minutes := 60, start_datetime := 0, end_datetime := 100,
    shuffle_questions := false, negative_marking := 0,
    examQuestions := [{ question := q1, order := 1, marks_override := none }] }

/-- In-progress attempt at examLate with no answers. -/
def stLate : AttemptState :=
  { attempt := attemptIP, answers := [] }

/-- Counterexample to C2: submitting at time 200, after end_datetime = 100
has passed, still yields status SUBMITTED, not AUTO_SUBMITTED. -/
theorem submit_after_deadline_still_SUBMITTED_cex :
    examLate.end_datetime < 200 ∧
    stLate.attempt.status = .IN_PROGRESS ∧
    (SubmitExamView_post 200 examLate stLate).2.attempt.status = .SUBMITTED ∧
    AttemptStatus.SUBMITTED ≠ AttemptStatus.AUTO_SUBMITTED := by
  decide

/-- Amended C2: SubmitExamView.post performs no deadline check at all; a
submit on any non-terminal attempt always resolves to SUBMITTED, for every
value of now, even one past end_datetime.  AUTO_SUBMITTED is never
produced. -/
theorem submit_always_marks_SUBMITTED
    (now : Int) (exam : Exam) (st : AttemptState)
    (h : st.attempt.status.isTerminal = false) :
    (SubmitExamView_post now exam st).2.attempt.status = .SUBMITTED := by
  simp [SubmitExamView_post, h]

/-- Witness for the amended C2 at a concrete post-deadline submit. -/
theorem submit_always_marks_SUBMITTED_witness :
    (SubmitExamView_post 200 examLate stLate).2.attempt.status = .SUBMITTED :=
  submit_always_marks_SUBMITTED 200 examLate stLate (by decide)

/-!
Claim C3.
-/

/-- Claim C3: a wrong objective answer gets 0 marks and is marked
evaluated; the running total changes by the negative-marking coefficient
exactly when the coefficient is positive and the selection is non-empty;
an empty selection is never penalized; and the stored objective score is
not floored at zero, as the concrete -1/4 scenario shows. -/
theorem wrong_objective_answer_scoring
    (neg : Rat) (ans : StudentAnswer)
    (hobj : ans.question.question_type.isObjective = true)
    (hwrong : sameSet ans.question.correctOptionIds ans.selected_options = false) :
    (scoreAnswer neg ans).1.marks_awarded = 0 ∧
    (scoreAnswer neg ans).1.is_evaluated = true ∧
    (scoreAnswer neg ans).2
      = (if 0 < neg ∧ 0 < ans.selected_options.length then -neg else 0) ∧
    (ans.selected_options = [] → (scoreAnswer neg ans).2 = 0) ∧
    (SubmitExamView_post 5 examNeg stNeg).2.attempt.score_objective = -(1/4) := by
  refine ⟨?_, ?_, ?_, ?_, ?_⟩
  · simp [scoreAnswer, hobj, hwrong]
  · simp [scoreAnswer, hobj, hwrong]
  · simp [scoreAnswer, hobj, hwrong]
  · intro he
    rw [he] at hwrong
    simp [scoreAnswer, hobj, hwrong, he]
  · simp [SubmitExamView_post, runScorer, scoreAnswer, examNeg, stNeg,
      ansWrong, attemptIP, q2, sameSet, Question.correctOptionIds,
      AttemptStatus.isTerminal, QuestionType.isObjective]

/-- Witness for C3 at the spec scenario: coefficient 1/4, 2-mark question,
wrong single selected option. -/
theorem wrong_objective_answer_scoring_witness :
    (scoreAnswer (1/4) ansWrong).1.marks_awarded = 0 ∧
    (scoreAnswer (1/4) ansWrong).1.is_evaluated = true ∧
    (scoreAnswer (1/4) ansWrong).2
      = (if 0 < (1/4 : Rat) ∧ 0 < ansWrong.selected_options.length
         then -(1/4 : Rat) else 0) ∧
    (ansWrong.selected_options = [] → (scoreAnswer (1/4) ansWrong).2 = 0) ∧
    (SubmitExamView_post 5 examNeg stNeg).2.attempt.score_objective = -(1/4) :=
  wrong_objective_answer_scoring (1/4) ansWrong (by decide) (by decide)

/-!
Claim C4.
-/

/-- A 2-mark MCQ with a single correct option of id 7. -/
def qOvr : Question :=
  { id := 5, question_type := .MCQ, marks := 2,
    options := [{ id := 7, is_correct := true }] }

/-- Exam binding qOvr with a per-question marks override of 5. -/
def examOvr : Exam :=
  { duration_minutes := 60, start_datetime := 0, end_datetime := 10000,
    shuffle_questions := false, negative_marking := 0,
    examQuestions := [{ question := qOvr, order := 1, marks_override := some 5 }] }

/-- A fully correct answer to qOvr. -/
def ansRightOvr : StudentAnswer :=
  { question := qOvr, selected_options := [7], answer_text := "",
    is_evaluated := false, marks_awarded := 0 }

/-- In-progress attempt at examOvr holding the correct answer. -/
def stOvr : AttemptState :=
  { attempt := { attemptIP with question_order := [5] }, answers := [ansRightOvr] }

/-- Counterexample to C4: the exam carries a marks override of 5 for the
question, yet the scorer awards the base marks 2, so the override is never
used. -/
theorem correct_answer_ignores_marks_override_cex :
    examOvr.examQuestions.map (fun l => l.marks_override) = [some 5] ∧
    (SubmitExamView_post 7 examOvr stOvr).2.answers.map
        (fun a => a.marks_awarded) = [(2 : Rat)] ∧
    (SubmitExamView_post 7 examOvr stOvr).2.attempt.score_objective = 2 ∧
    (2 : Rat) ≠ 5 := by
  refine ⟨rfl, ?_, ?_, by norm_num⟩
  · simp [SubmitExamView_post, runScorer, scoreAnswer, examOvr, stOvr,
      ansRightOvr, attemptIP, qOvr, sameSet, Question.correctOptionIds,
      AttemptStatus.isTerminal, QuestionType.isObjective]
  · simp [SubmitExamView_post, runScorer, scoreAnswer, examOvr, stOvr,
      ansRightOvr, attemptIP, qOvr, sameSet, Question.correctOptionIds,
      AttemptStatus.isTerminal, QuestionType.isObjective]

/-- Amended C4: on an exact set match the scorer awards the base marks of
the question (the ExamQuestion marks_override is never consulted) and
marks the answer evaluated; the same base marks are added to the running
total. -/
theorem correct_objective_answer_awards_base_marks
    (neg : Rat) (ans : StudentAnswer)
    (hobj : ans.question.question_type.isObjective = true)
    (hright : sameSet ans.question.correctOptionIds ans.selected_options = true) :
    (scoreAnswer neg ans).1.marks_awarded = (ans.question.marks : Rat) ∧
    (scoreAnswer neg ans).1.is_evaluated = true ∧
    (scoreAnswer neg ans).2 = (ans.question.marks : Rat) := by
  simp [scoreAnswer, hobj, hright]

/-- Witness for the amended C4 at the concrete correct answer. -/
theorem correct_objective_answer_awards_base_marks_witness :
    (scoreAnswer 0 ansRightOvr).1.marks_awarded = (ansRightOvr.question.marks : Rat) ∧
    (scoreAnswer 0 ansRightOvr).1.is_evaluated = true ∧
    (scoreAnswer 0 ansRightOvr).2 = (ansRightOvr.question.marks : Rat) :=
  correct_objective_answer_awards_base_marks 0 ansRightOvr (by decide) (by decide)

/-!
Claim C5.
-/

/-- A fully correct answer to q1. -/
def ansRight1 : StudentAnswer :=
  { question := q1, selected_options := [2], answer_text := "",
    is_evaluated := false, marks_awarded := 0 }

/-- In-progress attempt holding the correct answer to q1. -/
def stA : AttemptState :=
  { attempt := attemptIP, answers := [ansRight1] }

/-- Counterexample to C5: the first submit returns submitted with score 1,
the second returns the bare already_submitted response, which carries
neither the final state nor the total score, so the two responses differ. -/
theorem second_submit_response_differs_cex :
    (SubmitExamView_post 10 examLate stA).1 = .submitted 1 ∧
    (SubmitExamView_post 20 examLate
        (SubmitExamView_post 10 examLate stA).2).1 = .already_submitted ∧
    SubmitExamResponse.submitted 1 ≠ .already_submitted := by
  refine ⟨?_, ?_, by simp⟩
  · simp [SubmitExamView_post, runScorer, scoreAnswer, examLate, stA,
      ansRight1, attemptIP, q1, sameSet, Question.correctOptionIds,
      AttemptStatus.isTerminal, QuestionType.isObjective]
  · simp [SubmitExamView_post, runScorer, scoreAnswer, examLate, stA,
      ansRight1, attemptIP, q1, sameSet, Question.correctOptionIds,
      AttemptStatus.isTerminal, QuestionType.isObjective]

/-- Amended C5: a second submit on an attempt that a first submit made
terminal returns the already_submitted response and the state of the
first submit completely unchanged, so the scorer runs at most once and
the second call changes no attempt field and no answer row. -/
theorem second_submit_leaves_state_unchanged
    (a b : Int) (e₁ e₂ : Exam) (st : AttemptState)
    (h : st.attempt.status.isTerminal = false) :
    SubmitExamView_post b e₂ (SubmitExamView_post a e₁ st).2
      = (.already_submitted, (SubmitExamView_post a e₁ st).2) := by
  have hs : AttemptStatus.SUBMITTED.isTerminal = true := rfl
  simp [SubmitExamView_post, h, hs]

/-- Witness for the amended C5 at a concrete double submit. -/
theorem second_submit_leaves_state_unchanged_witness :
    SubmitExamView_post 20 examLate (SubmitExamView_post 10 examLate stA).2
      = (.already_submitted, (SubmitExamView_post 10 examLate stA).2) :=
  second_submit_leaves_state_unchanged 10 20 examLate examLate stA (by decide)

/-!
Claim C6.
-/

/-- The global question table holding q1 and q2. -/
def dbC6 : List Question := [q1, q2]

/-- In-progress attempt whose persisted order contains only question 1. -/
def stC6 : AttemptState :=
  { attempt := attemptIP, answers := [] }

/-- Counterexample to C6: question 2 is not in the persisted order [1],
yet saving an answer for it succeeds and creates an answer row for
question 2. -/
theorem save_answer_for_question_outside_order_cex :
    stC6.attempt.question_order = [1] ∧
    (2 : Nat) ∉ stC6.attempt.question_order ∧
    (SubmitAnswerView_post dbC6 2 [4] "x" stC6).1 = .saved ∧
    (SubmitAnswerView_post dbC6 2 [4] "x" stC6).2.answers.map
        (fun a => a.question.id) = [2] := by
  refine ⟨rfl, by decide, ?_, ?_⟩
  · simp [SubmitAnswerView_post, findQuestion, dbC6, stC6, attemptIP, q1, q2]
  · simp [SubmitAnswerView_post, findQuestion, dbC6, stC6, attemptIP, q1, q2]

/-- Amended C6: for an IN_PROGRESS attempt the save-answer endpoint fails
with its not-found error exactly when no Question row with that id exists
in the global table, and in that case the state is unchanged; membership
of the question in the attempt question_order is never checked. -/
theorem save_answer_notFound_iff_question_unknown
    (db : List Question) (qid : Nat) (sel : List Nat) (txt : String)
    (st : AttemptState) (hip : st.attempt.status = .IN_PROGRESS) :
    ((SubmitAnswerView_post db qid sel txt st).1 = .questionNotFound
        ↔ findQuestion db qid = none) ∧
    (findQuestion db qid = none →
        SubmitAnswerView_post db qid sel txt st = (.questionNotFound, st)) := by
  refine ⟨⟨?_, ?_⟩, ?_⟩
  · intro h1
    cases hf : findQuestion db qid with
    | none => rfl
    | some q =>
      rw [SubmitAnswerView_post, hf] at h1
      simp [hip] at h1
  · intro hf
    simp [SubmitAnswerView_post, hip, hf]
  · intro hf
    simp [SubmitAnswerView_post, hip, hf]

/-- Witness for the amended C6 at a concrete unknown question id. -/
theorem save_answer_notFound_iff_question_unknown_witness :
    ((SubmitAnswerView_post dbC6 99 [] "" stC6).1 = .questionNotFound
        ↔ findQuestion dbC6 99 = none) ∧
    (findQuestion dbC6 99 = none →
        SubmitAnswerView_post dbC6 99 [] "" stC6 = (.questionNotFound, stC6)) :=
  save_answer_notFound_iff_question_unknown dbC6 99 [] "" stC6 (by decide)

/-!
Claim C7.
-/

/-- Counterexample to C7: grading a short-answer question of an attempt
that is still IN_PROGRESS (not terminal) succeeds and writes: the call
returns new total 3, stores subjective score 3 and creates an evaluated
answer row with 3 marks. -/
theorem grade_nonterminal_attempt_writes_cex :
    stC6.attempt.status = .IN_PROGRESS ∧
    stC6.attempt.status.isTerminal = false ∧
    (grade_attempt qShort 3 stC6).1 = 3 ∧
    (grade_attempt qShort 3 stC6).2.attempt.score_subjective = 3 ∧
    (grade_attempt qShort 3 stC6).2.answers.map
        (fun a => (a.question.id, a.marks_awarded, a.is_evaluated))
      = [(9, (3 : Rat), true)] := by
  refine ⟨rfl, rfl, ?_, ?_, ?_⟩ <;>
    simp [grade_attempt, upsertGrade, subjectiveSum, stC6, attemptIP,
      qShort, QuestionType.isSubjective]

/-- Amended C7: grade_attempt performs no lifecycle-state check at all;
its returned total, its answer writes and its stored subjective score are
identical for every attempt status, so grading also goes through on
non-terminal attempts. -/
theorem grade_attempt_independent_of_status
    (q : Question) (m : Rat) (st : AttemptState) (s : AttemptStatus) :
    (grade_attempt q m
        { st with attempt := { st.attempt with status := s } }).2.answers
      = (grade_attempt q m st).2.answers ∧
    (grade_attempt q m
        { st with attempt := { st.attempt with status := s } }).1
      = (grade_attempt q m st).1 ∧
    (grade_attempt q m
        { st with attempt := { st.attempt with status := s } }).2.attempt.score_subjective
      = (grade_attempt q m st).2.attempt.score_subjective := by
  exact ⟨rfl, rfl, rfl⟩

/-!
Claim C8.
-/

/-- Counterexample to C8: at time 200 the window of examLate (ending at
100) is over; the template view does refuse, but the start endpoint still
creates an IN_PROGRESS attempt with a persisted question order. -/
theorem start_outside_window_creates_attempt_cex :
    examLate.end_datetime < 200 ∧
    take_exam_view 200 examLate = .endedError ∧
    (StartExamView_post id 200 examLate none).created = true ∧
    (StartExamView_post id 200 examLate none).attempt.status = .IN_PROGRESS ∧
    (StartExamView_post id 200 examLate none).attempt.question_order = [1] := by
  refine ⟨by decide, ?_, rfl, rfl, ?_⟩
  · simp [take_exam_view, examLate]
  · simp [StartExamView_post, examLate, Exam.questionList, q1]

/-- Amended C8: only the template entry point take_exam_view enforces the
window, refusing exactly when now is before start_datetime or after
end_datetime; the API start endpoint performs no window check and always
creates an IN_PROGRESS attempt when none exists, for every value of now. -/
theorem window_check_only_in_template_view
    (now : Int) (exam : Exam) (f : List Question → List Question) :
    (take_exam_view now exam ≠ .page
        ↔ (now < exam.start_datetime ∨ exam.end_datetime < now)) ∧
    (StartExamView_post f now exam none).created = true ∧
    (StartExamView_post f now exam none).attempt.status = .IN_PROGRESS := by
  refine ⟨?_, rfl, rfl⟩
  unfold take_exam_view
  by_cases h1 : now < exam.start_datetime
  · simp [h1]
  · by_cases h2 : exam.end_datetime < now
    · simp [h1, h2]
    · simp [h1, h2]

/-!
Claim C9.
-/

/-- Global question table holding only qShort. -/
def dbC9 : List Question := [qShort]

/-- An already graded answer to qShort: evaluated with 5 marks. -/
def ansGraded : StudentAnswer :=
  { question := qShort, selected_options := [], answer_text := "old",
    is_evaluated := true, marks_awarded := 5 }

/-- In-progress attempt holding the graded answer. -/
def stC9 : AttemptState :=
  { attempt := attemptIP, answers := [ansGraded] }

/-- Counterexample to C9: re-saving the answer for question 9 replaces the
text, but the evaluated flag stays true and marks_awarded stays 5, instead
of being reset to false and 0. -/
theorem upsert_keeps_stale_grade_cex :
    stC9.answers.map (fun a => (a.is_evaluated, a.marks_awarded))
      = [(true, (5 : Rat))] ∧
    (SubmitAnswerView_post dbC9 9 [] "new" stC9).1 = .saved ∧
    (SubmitAnswerView_post dbC9 9 [] "new" stC9).2.answers.map
        (fun a => (a.answer_text, a.is_evaluated, a.marks_awarded))
      = [("new", true, (5 : Rat))] := by
  refine ⟨rfl, ?_, ?_⟩ <;>
    simp [SubmitAnswerView_post, findQuestion, dbC9, stC9, ansGraded,
      attemptIP, qShort]

/-- Amended C9: a second upsert for an existing (attempt, question) pair
replaces only selected_options and answer_text; all other fields of the
row, in particular is_evaluated and marks_awarded, are left unchanged. -/
theorem upsert_replaces_payload_only
    (db : List Question) (qid : Nat) (sel : List Nat) (txt : String)
    (st : AttemptState)
    (hip : st.attempt.status = .IN_PROGRESS)
    (hq : (findQuestion db qid).isSome = true)
    (hex : st.answers.any (fun a => a.question.id = qid) = true) :
    (SubmitAnswerView_post db qid sel txt st).1 = .saved ∧
    (SubmitAnswerView_post db qid sel txt st).2.answers
      = st.answers.map (fun a =>
          if a.question.id = qid then
            { a with selected_options := sel, answer_text := txt }
          else a) := by
  obtain ⟨q, hq2⟩ := Option.isSome_iff_exists.mp hq
  constructor <;> simp [SubmitAnswerView_post, hip, hq2, hex]

/-- Witness for the amended C9 at the concrete graded answer. -/
theorem upsert_replaces_payload_only_witness :
    (SubmitAnswerView_post dbC9 9 [] "new" stC9).1 = .saved ∧
    (SubmitAnswerView_post dbC9 9 [] "new" stC9).2.answers
      = stC9.answers.map (fun a =>
          if a.question.id = 9 then
            { a with selected_options := [], answer_text := "new" }
          else a) :=
  upsert_replaces_payload_only dbC9 9 [] "new" stC9 (by decide) (by decide)
    (by decide)

/-!
Claim C10.
-/

/-- Objective question types are never subjective. -/
theorem not_subjective_of_objective (t : QuestionType)
    (h : t.isObjective = true) : t.isSubjective = false := by
  cases t <;> simp_all [QuestionType.isObjective, QuestionType.isSubjective]

/-- Writing the grade of a non-subjective question into existing answer
rows does not change the subjective sum. -/
theorem subjectiveSum_map_update (q : Question) (m : Rat)
    (l : List StudentAnswer)
    (hns : q.question_type.isSubjective = false)
    (hkey : ∀ a ∈ l, a.question.id = q.id →
        a.question.question_type = q.question_type) :
    subjectiveSum (l.map (fun a =>
        if a.question.id = q.id then
          { a with marks_awarded := m, is_evaluated := true }
        else a))
      = subjectiveSum l := by
  induction l with
  | nil => rfl
  | cons a t ih =>
    have hkt : ∀ b ∈ t, b.question.id = q.id →
        b.question.question_type = q.question_type :=
      fun b hb => hkey b (List.mem_cons_of_mem a hb)
    by_cases hid : a.question.id = q.id
    · have hty : a.question.question_type = q.question_type :=
        hkey a (List.mem_cons_self a t) hid
      have hsub : a.question.question_type.isSubjective = false := by
        rw [hty]; exact hns
      simp [subjectiveSum, List.filter_cons, hid, hsub] at ih ⊢
      exact ih hkt
    · by_cases hsub : a.question.question_type.isSubjective
      · simp [subjectiveSum, List.filter_cons, hid, hsub] at ih ⊢
        exact ih hkt
      · simp [subjectiveSum, List.filter_cons, hid, hsub] at ih ⊢
        exact ih hkt

/-- Appending an answer row of a non-subjective question does not change
the subjective sum. -/
theorem subjectiveSum_append_nonsubjective (l : List StudentAnswer)
    (a : StudentAnswer) (h : a.question.question_type.isSubjective = false) :
    subjectiveSum (l ++ [a]) = subjectiveSum l := by
  simp [subjectiveSum, List.filter_append, h]

/-- Claim C10: grading an objective-type question overwrites marks_awarded
of that answer row and marks it evaluated, but, in any state where the
stored subjective score equals the subjective sum of the answer rows and
the stored total is objective plus subjective, all three attempt scores
are unchanged, because the recomputation sums only SHORT, LONG and CODE
answers. -/
theorem grade_objective_question_preserves_scores
    (q : Question) (m : Rat) (st : AttemptState)
    (hobj : q.question_type.isObjective = true)
    (hkey : ∀ a ∈ st.answers, a.question.id = q.id →
        a.question.question_type = q.question_type)
    (hsubj : st.attempt.score_subjective = subjectiveSum st.answers)
    (htot : st.attempt.total_score
        = st.attempt.score_objective + st.attempt.score_subjective) :
    (grade_attempt q m st).2.attempt.score_objective
        = st.attempt.score_objective ∧
    (grade_attempt q m st).2.attempt.score_subjective
        = st.attempt.score_subjective ∧
    (grade_attempt q m st).2.attempt.total_score = st.attempt.total_score ∧
    ∀ a ∈ (grade_attempt q m st).2.answers, a.question.id = q.id →
      a.marks_awarded = m ∧ a.is_evaluated = true := by
  have hns := not_subjective_of_objective q.question_type hobj
  have hsum : subjectiveSum (upsertGrade q m st.answers)
      = subjectiveSum st.answers := by
    unfold upsertGrade
    by_cases hany : st.answers.any (fun a => a.question.id = q.id) = true
    · rw [if_pos hany]
      exact subjectiveSum_map_update q m st.answers hns hkey
    · rw [if_neg hany]
      exact subjectiveSum_append_nonsubjective st.answers _ hns
  refine ⟨rfl, ?_, ?_, ?_⟩
  · simp [grade_attempt, hsum, hsubj]
  · simp [grade_attempt, hsum, ← hsubj, htot]
  · intro a ha hid
    have ha2 : a ∈ upsertGrade q m st.answers := ha
    unfold upsertGrade at ha2
    by_cases hany : st.answers.any (fun b => b.question.id = q.id) = true
    · rw [if_pos hany] at ha2
      obtain ⟨b, hb, hba⟩ := List.mem_map.mp ha2
      by_cases hbid : b.question.id = q.id
      · rw [if_pos hbid] at hba
        rw [← hba]
        exact ⟨rfl, rfl⟩
      · rw [if_neg hbid] at hba
        rw [← hba] at hid
        exact absurd hid hbid
    · rw [if_neg hany] at ha2
      rcases List.mem_append.mp ha2 with hl | hr
      · exact absurd (List.any_eq_true.mpr ⟨a, hl, by simpa using hid⟩) hany
      · rw [List.mem_singleton.mp hr]
        exact ⟨rfl, rfl⟩

/-- A terminal attempt whose stored scores are consistent: objective 1,
subjective 5 (from the graded answer to qShort), total 6. -/
def stC10 : AttemptState :=
  { attempt := { status := .SUBMITTED, score_objective := 1,
                 score_subjective := 5, total_score := 6,
                 started_at := some 0, submitted_at := some 50,
                 question_order := [1, 9] },
    answers := [ansGraded] }

/-- Witness for C10: grading the MCQ q1 with 4 marks in stC10 leaves all
three scores unchanged and writes the grade into the q1 answer row. -/
theorem grade_objective_question_preserves_scores_witness :
    (grade_attempt q1 4 stC10).2.attempt.score_objective
        = stC10.attempt.score_objective ∧
    (grade_attempt q1 4 stC10).2.attempt.score_subjective
        = stC10.attempt.score_subjective ∧
    (grade_attempt q1 4 stC10).2.attempt.total_score
        = stC10.attempt.total_score ∧
    ∀ a ∈ (grade_attempt q1 4 stC10).2.answers, a.question.id = q1.id →
      a.marks_awarded = 4 ∧ a.is_evaluated = true :=
  grade_objective_question_preserves_scores q1 4 stC10 (by decide)
    (by
      intro a ha hid
      simp [stC10, ansGraded, qShort, q1] at ha
      rw [ha] at hid
      simp [ansGraded, qShort, q1] at hid)
    (by simp [stC10, subjectiveSum, ansGraded, qShort,
          QuestionType.isSubjective])
    (by norm_num [stC10])
